import Mathlib

/-!
Shallow embedding of `helper_scripts/udp_forward.py`, a minimal UDP relay:
it binds a UDP socket on `int(sys.argv[2])`, and for each received datagram
`data, (src_ip, src_port) = sock.recvfrom(4096)` it prints a log line and
sends a raw packet
`IP(dst=destination_ip, src=src_ip)/UDP(dport=int(sys.argv[2]), sport=src_port)/Raw(load=data)`.

Bytes are modelled as `List Nat`, IP addresses as `String`, and the process
output as a trace of events.  Machine-level details that the script never
touches (checksums, header lengths recomputed by `IP(raw(packet))`) are not
part of the abstract packet, so the re-parse step is the identity at this
level of abstraction.
-/

/-- A UDP datagram as delivered by the network: payload bytes plus the
sender's address, as returned by `sock.recvfrom`. -/
structure Datagram where
  payload : List Nat
  srcIp : String
  srcPort : Nat
deriving DecidableEq, Repr

/-- The abstract content of the scapy packet
`IP(dst=..., src=...)/UDP(dport=..., sport=...)/Raw(load=...)`:
IP source/destination addresses, UDP source/destination ports, payload.
`dport` is an `Int` because it comes from Python `int(sys.argv[2])`. -/
structure Packet where
  ipSrc : String
  ipDst : String
  sport : Nat
  dport : Int
  payload : List Nat
deriving DecidableEq, Repr

/-- Relay configuration: `destination_ip = sys.argv[1]` and the listening
port `int(sys.argv[2])`. -/
structure Config where
  destination_ip : String
  listen_port : Int
deriving DecidableEq, Repr

/-- Python exception classes that can escape this script uncaught. -/
inductive PyErr where
  | indexError
  | valueError
  | overflowError
  | osError (detail : String)
deriving DecidableEq, Repr

/-- Observable output of the process: lines printed to stdout, the
per-datagram log line `print(data, src_ip, src_port)`, and packets
transmitted by `send(packet)`. -/
inductive Event where
  | stdout (s : String)
  | log (payload : List Nat) (srcIp : String) (srcPort : Nat)
  | send (p : Packet)
deriving DecidableEq, Repr

/-- Process outcome after consuming a finite prefix of the world's inputs:
either it exited with a code, or it is blocked in `recvfrom` waiting for the
next datagram, or an uncaught Python exception terminated it. -/
inductive Outcome where
  | exited (code : Nat)
  | awaitingReceive
  | uncaught (e : PyErr)
deriving DecidableEq, Repr

/-- Characters stripped by Python `int(str)` before parsing (ASCII
whitespace as accepted by `str.strip` on ASCII input). -/
def isPyWs (c : Char) : Bool :=
  c = ' ' || c = '\t' || c = '\n' || c = '\r' || c = '\x0b' || c = '\x0c'

/-- Numeric value of an ASCII digit character. -/
def digitVal (c : Char) : Nat :=
  c.toNat - 48

/-- Digit tail of a Python decimal integer literal: digits, with single
underscores allowed only between digits. `acc` is the value parsed so far. -/
def pyDigitsAux : Nat → List Char → Option Nat
  | acc, [] => some acc
  | _, ['_'] => none
  | acc, '_' :: c :: cs =>
      if c.isDigit then pyDigitsAux (acc * 10 + digitVal c) cs else none
  | acc, c :: cs =>
      if c.isDigit then pyDigitsAux (acc * 10 + digitVal c) cs else none

/-- Unsigned digit run of a Python decimal integer: nonempty, starts with a
digit (no leading underscore). -/
def pyDigitsStart : List Char → Option Nat
  | [] => none
  | c :: cs => if c.isDigit then pyDigitsAux (digitVal c) cs else none

/-- Body of Python `int(str)` after whitespace stripping: optional sign,
then a digit run. -/
def pyIntCore : List Char → Option Int
  | '+' :: rest => (pyDigitsStart rest).map (fun n => (n : Int))
  | '-' :: rest => (pyDigitsStart rest).map (fun n => -(n : Int))
  | rest => (pyDigitsStart rest).map (fun n => (n : Int))

/-- Python `int(s)` for a decimal string: strips surrounding whitespace,
accepts an optional sign and a digit run with interior underscores; `none`
models the `ValueError` raised on malformed input. -/
def pyInt (s : String) : Option Int :=
  let cs := s.toList.dropWhile (fun c => isPyWs c)
  let cs := ((cs.reverse).dropWhile (fun c => isPyWs c)).reverse
  pyIntCore cs

/-- `sock.recvfrom(bufsize)` applied to one pending datagram: returns at
most `bufsize` payload bytes (standard UDP truncation) together with the
sender's IP and port. -/
def recvfrom (bufsize : Nat) (d : Datagram) : List Nat × String × Nat :=
  (d.payload.take bufsize, d.srcIp, d.srcPort)

/-- The packet built by
`IP(dst=destination_ip, src=src_ip)/UDP(dport=int(sys.argv[2]), sport=src_port)/Raw(load=data)`. -/
def forward (destIp : String) (lport : Int) (data : List Nat) (srcIp : String)
    (srcPort : Nat) : Packet :=
  { ipSrc := srcIp, ipDst := destIp, sport := srcPort, dport := lport,
    payload := data }

/-- `packet = IP(raw(packet))`: serialise and re-parse the packet.  The
round trip recomputes checksum and length header fields, which are not part
of the abstract `Packet`; addresses, ports and payload survive unchanged,
so at this abstraction the re-parse is the identity. -/
def reparse (p : Packet) : Packet :=
  p

/-- One iteration of the `while 1:` loop on a successfully received
datagram: `recvfrom(4096)`, then `print(data, src_ip, src_port)`, then
build, re-parse and `send` the packet. -/
def relayStep (cfg : Config) (d : Datagram) : List Event :=
  let r := recvfrom 4096 d
  let data := r.1
  let srcIp := r.2.1
  let srcPort := r.2.2
  let packet := forward cfg.destination_ip cfg.listen_port data srcIp srcPort
  let packet := reparse packet
  [Event.log data srcIp srcPort, Event.send packet]

/-- The packet `relayStep` transmits for datagram `d`. -/
def fwdPacket (cfg : Config) (d : Datagram) : Packet :=
  forward cfg.destination_ip cfg.listen_port (d.payload.take 4096) d.srcIp
    d.srcPort

/-- The send events of a trace, in order. -/
def sends (evs : List Event) : List Packet :=
  evs.filterMap (fun e =>
    match e with
    | Event.send p => some p
    | _ => none)

/-- The `while 1:` loop run over a finite schedule of world inputs.  Each
schedule entry is a datagram together with `some e` when the construction
or transmission of its forwarded packet raises exception `e` (the loop body
has no exception handler, so such an exception escapes: the log line was
already printed, no packet is sent, the rest of the schedule is never
processed).  With an exhausted schedule the loop blocks in `recvfrom`. -/
def runLoop (cfg : Config) : List (Datagram × Option PyErr) → List Event × Outcome
  | [] => ([], Outcome.awaitingReceive)
  | (d, none) :: rest =>
      let r := runLoop cfg rest
      (relayStep cfg d ++ r.1, r.2)
  | (d, some e) :: _ =>
      let r := recvfrom 4096 d
      ([Event.log r.1 r.2.1 r.2.2], Outcome.uncaught e)

/-- The whole script.  `argv` is `sys.argv` (element 0 is the program
name).  Reading `sys.argv[1]` or `sys.argv[2]` out of range raises an
uncaught `IndexError`; a malformed `sys.argv[2]` raises an uncaught
`ValueError` from `int` (the `try` block only catches `socket.error`).
`bindOk` abstracts the OS outcome of `sock.bind(("", port))`: on failure
the handler prints `Bind failed.` and exits with status 1; on success the
script prints `Socket activated` and enters the relay loop. -/
def run (argv : List String) (bindOk : Bool)
    (world : List (Datagram × Option PyErr)) : List Event × Outcome :=
  (argv.get? 1).elim ([], Outcome.uncaught PyErr.indexError) (fun dest =>
    (argv.get? 2).elim ([], Outcome.uncaught PyErr.indexError) (fun portStr =>
      (pyInt portStr).elim ([], Outcome.uncaught PyErr.valueError) (fun port =>
        if bindOk then
          let cfg : Config := { destination_ip := dest, listen_port := port }
          let r := runLoop cfg world
          (Event.stdout "Socket activated" :: r.1, r.2)
        else
          ([Event.stdout "Bind failed."], Outcome.exited 1))))

/-- Example configuration from the spec scenario. -/
def cfgEx : Config :=
  { destination_ip := "10.0.0.5", listen_port := 9000 }

/-- Example datagram from the spec scenario: payload `hello` from
`192.168.1.20:5555`. -/
def dgramEx : Datagram :=
  { payload := [104, 101, 108, 108, 111], srcIp := "192.168.1.20",
    srcPort := 5555 }

/-- A second example datagram, used where two distinct datagrams appear. -/
def dgramEx2 : Datagram :=
  { payload := [1, 2, 3], srcIp := "192.168.1.21", srcPort := 4444 }

/-- An oversized datagram: 4097 payload bytes, one more than the receive
buffer. -/
def dgramBig : Datagram :=
  { payload := List.replicate 4097 7, srcIp := "192.168.1.20",
    srcPort := 5555 }

/-- Example command line from the spec scenario. -/
def argvEx : List String :=
  ["udp_forward.py", "10.0.0.5", "9000"]

theorem relayStep_eq (cfg : Config) (d : Datagram) :
    relayStep cfg d =
      [Event.log (d.payload.take 4096) d.srcIp d.srcPort,
       Event.send (fwdPacket cfg d)] :=
  rfl

theorem sends_append (a b : List Event) :
    sends (a ++ b) = sends a ++ sends b :=
  List.filterMap_append a b _

theorem runLoop_ok (cfg : Config) (ds : List Datagram) :
    runLoop cfg (ds.map (fun d => (d, none))) =
      (ds.flatMap (fun d => relayStep cfg d), Outcome.awaitingReceive) := by
  induction ds with
  | nil => rfl
  | cons d rest ih => simp [runLoop, ih, List.flatMap_cons]

theorem run_eq_of_parsed (argv : List String) (bindOk : Bool)
    (world : List (Datagram × Option PyErr)) (dest portStr : String)
    (port : Int) (hd : argv.get? 1 = some dest)
    (hp : argv.get? 2 = some portStr) (hi : pyInt portStr = some port) :
    run argv bindOk world =
      if bindOk then
        (Event.stdout "Socket activated" ::
          (runLoop { destination_ip := dest, listen_port := port } world).1,
         (runLoop { destination_ip := dest, listen_port := port } world).2)
      else ([Event.stdout "Bind failed."], Outcome.exited 1) := by
  unfold run
  simp only [hd, hp, hi, Option.elim_some]

theorem runLoop_no_stdout (cfg : Config)
    (w : List (Datagram × Option PyErr)) (s : String) :
    Event.stdout s ∉ (runLoop cfg w).1 := by
  induction w with
  | nil => simp [runLoop]
  | cons x xs ih =>
      obtain ⟨d, o⟩ := x
      cases o with
      | none =>
          simp [runLoop, relayStep_eq, ih]
      | some e =>
          simp [runLoop]

/-- C1: for every datagram received with source IP `S` and source port `P`,
the packet forwarded by the relay loop has IP source `S`, IP destination
equal to the `destination_ip` given as the first CLI argument, UDP source
port `P`, and UDP destination port equal to the listening port given as the
second CLI argument. -/
theorem address_rewriting (argv : List String) (ds : List Datagram)
    (dest portStr : String) (port : Int) (d : Datagram)
    (hd : argv.get? 1 = some dest) (hp : argv.get? 2 = some portStr)
    (hi : pyInt portStr = some port) (hmem : d ∈ ds) :
    ∃ p, Event.send p ∈ (run argv true (ds.map (fun x => (x, none)))).1 ∧
      p.ipSrc = d.srcIp ∧ p.ipDst = dest ∧ p.sport = d.srcPort ∧
      p.dport = port := by
  refine ⟨fwdPacket { destination_ip := dest, listen_port := port } d,
    ?_, rfl, rfl, rfl, rfl⟩
  rw [run_eq_of_parsed argv true (ds.map (fun x => (x, none))) dest portStr
    port hd hp hi, if_pos rfl, runLoop_ok]
  refine List.mem_cons_of_mem _ (List.mem_flatMap.mpr ⟨d, hmem, ?_⟩)
  simp [relayStep_eq]

/-- Witness for C1 at the spec scenario inputs. -/
theorem address_rewriting_witness :
    ∃ p,
      Event.send p ∈ (run argvEx true ([dgramEx].map (fun x => (x, none)))).1 ∧
      p.ipSrc = dgramEx.srcIp ∧ p.ipDst = "10.0.0.5" ∧
      p.sport = dgramEx.srcPort ∧ p.dport = 9000 :=
  address_rewriting argvEx [dgramEx] "10.0.0.5" "9000" 9000 dgramEx rfl rfl
    rfl (List.mem_singleton.mpr rfl)

/-- C2: a received byte sequence of length at most the 4096-byte receive
buffer is forwarded byte-identically: the payload of the forwarded packet
equals the received bytes, whatever their content. -/
theorem payload_fidelity (cfg : Config) (d : Datagram)
    (h : d.payload.length ≤ 4096) :
    ∃ p, sends (relayStep cfg d) = [p] ∧ p.payload = d.payload := by
  refine ⟨fwdPacket cfg d, rfl, ?_⟩
  simpa [fwdPacket, forward] using List.take_of_length_le h

/-- Witness for C2 on the payload `hello`. -/
theorem payload_fidelity_witness :
    ∃ p, sends (relayStep cfgEx dgramEx) = [p] ∧
      p.payload = dgramEx.payload :=
  payload_fidelity cfgEx dgramEx (by decide)

/-- C4: a datagram longer than 4096 bytes is truncated by
`recvfrom(4096)`: the forwarded payload is exactly the first 4096 bytes of
the original datagram. -/
theorem truncation (cfg : Config) (d : Datagram)
    (h : 4096 < d.payload.length) :
    ∃ p, sends (relayStep cfg d) = [p] ∧
      p.payload = d.payload.take 4096 ∧ p.payload.length = 4096 := by
  refine ⟨fwdPacket cfg d, rfl, rfl, ?_⟩
  simp only [fwdPacket, forward, List.length_take]
  omega

/-- Witness for C4 on a 4097-byte datagram. -/
theorem truncation_witness :
    ∃ p, sends (relayStep cfgEx dgramBig) = [p] ∧
      p.payload = dgramBig.payload.take 4096 ∧ p.payload.length = 4096 :=
  truncation cfgEx dgramBig
    (by simp only [dgramBig, List.length_replicate]; omega)

/-- C5: forwarding order equals receive order: over any finite sequence of
received datagrams the transmitted packets are exactly the forwarded
packets of the datagrams, in the same order, so the packet for `D1`
precedes the packet for `D2` whenever `D1` was received before `D2`. -/
theorem forwarding_order (cfg : Config) (ds : List Datagram) :
    sends (runLoop cfg (ds.map (fun d => (d, none)))).1 =
      ds.map (fun d => fwdPacket cfg d) := by
  rw [runLoop_ok]
  induction ds with
  | nil => rfl
  | cons d rest ih =>
      rw [List.flatMap_cons, sends_append, ih]
      rfl

/-- C3: with well-formed arguments, a failed `sock.bind` makes the process
print exactly the diagnostic `Bind failed.` and exit with status 1; the
trace contains no log event and no send event, so no receive or forward
operation was performed, however many datagrams the world holds. -/
theorem bind_failure_exits (argv : List String)
    (world : List (Datagram × Option PyErr)) (dest portStr : String)
    (port : Int) (hd : argv.get? 1 = some dest)
    (hp : argv.get? 2 = some portStr) (hi : pyInt portStr = some port) :
    run argv false world = ([Event.stdout "Bind failed."], Outcome.exited 1) ∧
    sends (run argv false world).1 = [] ∧
    ∀ pl ip pt, Event.log pl ip pt ∉ (run argv false world).1 := by
  have h := run_eq_of_parsed argv false world dest portStr port hd hp hi
  rw [if_neg (by simp)] at h
  refine ⟨h, ?_, ?_⟩
  · rw [h]
    rfl
  · intro pl ip pt
    rw [h]
    simp

/-- Witness for C3: bind fails with a datagram pending; nothing is
received or forwarded. -/
theorem bind_failure_exits_witness :
    run argvEx false [(dgramEx, none)] =
      ([Event.stdout "Bind failed."], Outcome.exited 1) ∧
    sends (run argvEx false [(dgramEx, none)]).1 = [] ∧
    ∀ pl ip pt,
      Event.log pl ip pt ∉ (run argvEx false [(dgramEx, none)]).1 :=
  bind_failure_exits argvEx [(dgramEx, none)] "10.0.0.5" "9000" 9000 rfl rfl
    rfl

/-- C6: for the `i`-th received datagram, the trace holds its log event
(payload, source IP, source port) at some position `k` and the
corresponding send event immediately after it at `k + 1`: the log line is
emitted before the forwarded packet is transmitted. -/
theorem log_before_send (cfg : Config) (ds : List Datagram) (i : Nat)
    (h : i < ds.length) :
    ∃ k,
      ((runLoop cfg (ds.map (fun d => (d, none)))).1)[k]? =
        some (Event.log (ds[i].payload.take 4096) ds[i].srcIp ds[i].srcPort) ∧
      ((runLoop cfg (ds.map (fun d => (d, none)))).1)[k + 1]? =
        some (Event.send (fwdPacket cfg ds[i])) := by
  induction ds generalizing i with
  | nil => exact absurd h (by simp)
  | cons d rest ih =>
      cases i with
      | zero =>
          refine ⟨0, ?_, ?_⟩ <;>
            simp [List.map_cons, runLoop, relayStep_eq]
      | succ j =>
          obtain ⟨k, h1, h2⟩ := ih j (by simpa using h)
          refine ⟨k + 2, ?_, ?_⟩
          · show (Event.log (d.payload.take 4096) d.srcIp d.srcPort ::
              Event.send (fwdPacket cfg d) ::
              (runLoop cfg (rest.map (fun d => (d, none)))).1)[k + 2]? = _
            rw [List.getElem?_cons_succ, List.getElem?_cons_succ]
            exact h1
          · show (Event.log (d.payload.take 4096) d.srcIp d.srcPort ::
              Event.send (fwdPacket cfg d) ::
              (runLoop cfg (rest.map (fun d => (d, none)))).1)[k + 3]? = _
            rw [List.getElem?_cons_succ, List.getElem?_cons_succ]
            exact h2

/-- Witness for C6 at the spec scenario datagram. -/
theorem log_before_send_witness :
    ∃ k,
      ((runLoop cfgEx ([dgramEx].map (fun d => (d, none)))).1)[k]? =
        some (Event.log (dgramEx.payload.take 4096) dgramEx.srcIp
          dgramEx.srcPort) ∧
      ((runLoop cfgEx ([dgramEx].map (fun d => (d, none)))).1)[k + 1]? =
        some (Event.send (fwdPacket cfgEx dgramEx)) :=
  log_before_send cfgEx [dgramEx] 0 (by simp)

/-- C7: an error raised while building or sending the forwarded packet is
not caught anywhere: the loop processed the earlier datagrams normally,
prints the log line of the failing one, transmits no packet for it, never
retries it, and the exception escapes and terminates the process, leaving
the rest of the input unprocessed. -/
theorem forward_errors_fatal (cfg : Config)
    (pre : List (Datagram × Option PyErr)) (d : Datagram) (e : PyErr)
    (rest : List (Datagram × Option PyErr))
    (hok : ∀ x ∈ pre, x.2 = none) :
    runLoop cfg (pre ++ (d, some e) :: rest) =
      (pre.flatMap (fun x => relayStep cfg x.1) ++
        [Event.log (d.payload.take 4096) d.srcIp d.srcPort],
       Outcome.uncaught e) := by
  induction pre with
  | nil => rfl
  | cons x xs ih =>
      obtain ⟨d2, o⟩ := x
      have ho : o = none := hok (d2, o) (List.mem_cons_self _ _)
      subst ho
      have ih2 := ih (fun y hy => hok y (List.mem_cons_of_mem _ hy))
      show (relayStep cfg d2 ++
          (runLoop cfg (xs ++ (d, some e) :: rest)).1,
        (runLoop cfg (xs ++ (d, some e) :: rest)).2) = _
      rw [ih2, List.flatMap_cons, List.append_assoc]

/-- Witness for C7: one good datagram, then a failing send, then an
unreached datagram. -/
theorem forward_errors_fatal_witness :
    runLoop cfgEx
        [(dgramEx, none), (dgramEx2, some (PyErr.osError "EPERM")),
         (dgramEx, none)] =
      ([((dgramEx, none) : Datagram × Option PyErr)].flatMap
          (fun x => relayStep cfgEx x.1) ++
        [Event.log (dgramEx2.payload.take 4096) dgramEx2.srcIp
          dgramEx2.srcPort],
       Outcome.uncaught (PyErr.osError "EPERM")) :=
  forward_errors_fatal cfgEx [(dgramEx, none)] dgramEx2
    (PyErr.osError "EPERM") [(dgramEx, none)] (by decide)

/-- C8: under a successful bind and error-free receive and forward steps,
the loop never terminates: after consuming any finite number of datagrams
the process is again blocked in `recvfrom`, and no exit status (in
particular not 0) is ever reached. -/
theorem loop_never_terminates (argv : List String)
    (world : List (Datagram × Option PyErr)) (dest portStr : String)
    (port : Int) (hd : argv.get? 1 = some dest)
    (hp : argv.get? 2 = some portStr) (hi : pyInt portStr = some port)
    (hok : ∀ x ∈ world, x.2 = none) :
    (run argv true world).2 = Outcome.awaitingReceive ∧
    ∀ c, (run argv true world).2 ≠ Outcome.exited c := by
  have h := run_eq_of_parsed argv true world dest portStr port hd hp hi
  rw [if_pos rfl] at h
  have h2 : (runLoop { destination_ip := dest, listen_port := port }
      world).2 = Outcome.awaitingReceive := by
    clear h
    induction world with
    | nil => rfl
    | cons x xs ih =>
        obtain ⟨d2, o⟩ := x
        have ho : o = none := hok (d2, o) (List.mem_cons_self _ _)
        subst ho
        exact ih (fun y hy => hok y (List.mem_cons_of_mem _ hy))
    
  constructor
  · rw [h]
    exact h2
  · intro c hc
    rw [h] at hc
    rw [h2] at hc
    exact nomatch hc

/-- Witness for C8 after one clean iteration. -/
theorem loop_never_terminates_witness :
    (run argvEx true [(dgramEx, none)]).2 = Outcome.awaitingReceive ∧
    ∀ c, (run argvEx true [(dgramEx, none)]).2 ≠ Outcome.exited c :=
  loop_never_terminates argvEx [(dgramEx, none)] "10.0.0.5" "9000" 9000 rfl
    rfl rfl (by decide)

/-- C9: with fewer than two positional arguments, or with a listen-port
argument that Python `int` rejects, the process dies of an uncaught
runtime exception with no output of its own: it does not print
`Bind failed.` and does not take the exit-status-1 bind-failure path. -/
theorem bad_args_uncaught (argv : List String) (bindOk : Bool)
    (world : List (Datagram × Option PyErr))
    (h : argv.length < 3 ∨ ∃ s, argv.get? 2 = some s ∧ pyInt s = none) :
    ∃ e, run argv bindOk world = ([], Outcome.uncaught e) ∧
      run argv bindOk world ≠
        ([Event.stdout "Bind failed."], Outcome.exited 1) := by
  rcases argv with _ | ⟨a, _ | ⟨b, _ | ⟨c, t⟩⟩⟩
  · exact ⟨PyErr.indexError, rfl, by simp [run]⟩
  · exact ⟨PyErr.indexError, rfl, by simp [run]⟩
  · exact ⟨PyErr.indexError, rfl, by simp [run]⟩
  · rcases h with h | ⟨s, hs, hnone⟩
    · exact absurd h (by simp)
    · have hsc : s = c := by
        simpa using hs.symm
      subst hsc
      refine ⟨PyErr.valueError, ?_, ?_⟩
      · show ((pyInt s).elim ([], Outcome.uncaught PyErr.valueError) _ :
          List Event × Outcome) = _
        rw [hnone]
        rfl
      · show ((pyInt s).elim ([], Outcome.uncaught PyErr.valueError) _ :
          List Event × Outcome) ≠ _
        rw [hnone]
        simp [Option.elim]

/-- Witness for C9: a single positional argument (only the destination
IP). -/
theorem bad_args_uncaught_witness :
    ∃ e, run ["udp_forward.py", "10.0.0.5"] true [(dgramEx, none)] =
        ([], Outcome.uncaught e) ∧
      run ["udp_forward.py", "10.0.0.5"] true [(dgramEx, none)] ≠
        ([Event.stdout "Bind failed."], Outcome.exited 1) :=
  bad_args_uncaught ["udp_forward.py", "10.0.0.5"] true [(dgramEx, none)]
    (Or.inl (by simp))

/-- C10: after a successful bind the very first trace event is the single
line `Socket activated`, and no further stdout line is ever produced: the
per-datagram log and send events are the only events after it, whatever
the world delivers. -/
theorem socket_activated_once (argv : List String)
    (world : List (Datagram × Option PyErr)) (dest portStr : String)
    (port : Int) (hd : argv.get? 1 = some dest)
    (hp : argv.get? 2 = some portStr) (hi : pyInt portStr = some port) :
    ∃ rest,
      (run argv true world).1 = Event.stdout "Socket activated" :: rest ∧
      ∀ s, Event.stdout s ∉ rest := by
  have h := run_eq_of_parsed argv true world dest portStr port hd hp hi
  rw [if_pos rfl] at h
  refine ⟨(runLoop { destination_ip := dest, listen_port := port }
    world).1, ?_, ?_⟩
  · rw [h]
  · intro s
    exact runLoop_no_stdout _ _ s

/-- Witness for C10 at the spec scenario inputs. -/
theorem socket_activated_once_witness :
    ∃ rest,
      (run argvEx true [(dgramEx, none)]).1 =
        Event.stdout "Socket activated" :: rest ∧
      ∀ s, Event.stdout s ∉ rest :=
  socket_activated_once argvEx [(dgramEx, none)] "10.0.0.5" "9000" 9000 rfl
    rfl rfl
